import Mathlib

/-!
Shallow embedding of `crates/bevy_winit/src/winit_windows.rs`.

The module maps engine window entities onto native (winit) window handles,
selects monitors and video modes, and implements cursor-grab logic.

Modelling conventions:
* `Entity` and `WindowId` are opaque identifiers, modelled as `Nat`.
* Rust `HashMap`/`EntityHashMap` are modelled as association lists with
  no duplicate keys; `insert` overwrites, `remove` deletes the key.
* External winit calls (`ActiveEventLoop::create_window`,
  `Window::set_cursor_grab`, `Window::set_cursor_hittest`) are modelled by
  oracle values/functions supplied as parameters, since their outcomes are
  decided by the OS windowing library.
* A Rust panic (`unwrap` / `expect`) is modelled by `Option.none` or by
  `Except.error` carrying a `Panicked` reason.
* Log statements (`warn!` / `error!` / `debug!`) are modelled as a list of
  emitted `LogEvent`s.
-/

namespace BevyWinit

/-- Engine-side entity identifier (`bevy_ecs::entity::Entity`). -/
abbrev Entity := Nat

/-- Native winit window identifier (`winit::window::WindowId`). -/
abbrev WindowId := Nat

/-- Physical size of a video mode (`winit::dpi::PhysicalSize<u32>`). -/
structure PhysicalSize where
  width : Nat
  height : Nat
deriving DecidableEq

/-- A monitor video mode (`winit::monitor::VideoModeHandle`): resolution and
refresh rate in millihertz. -/
structure VideoModeHandle where
  size : PhysicalSize
  refresh_rate_millihertz : Nat
deriving DecidableEq

/-- A monitor handle (`winit::monitor::MonitorHandle`), carrying its list of
supported video modes. -/
structure MonitorHandle where
  id : Nat
  video_modes : List VideoModeHandle
deriving DecidableEq

/-- Error type returned by fallible winit calls (`winit::error::ExternalError`). -/
structure ExternalError where
  code : Nat
deriving DecidableEq

/-- `bevy_window::CursorGrabMode`. -/
inductive CursorGrabMode where
  | None
  | Confined
  | Locked
deriving DecidableEq

/-- `winit::window::CursorGrabMode`. -/
inductive WinitCursorGrabMode where
  | None
  | Confined
  | Locked
deriving DecidableEq

/-- `bevy_window::MonitorSelection`. -/
inductive MonitorSelection where
  | Current
  | Primary
  | Index (n : Nat)
  | Entity (entity : Nat)
deriving DecidableEq

/-- `bevy_window::WindowMode` (each fullscreen variant carries a monitor
selection). -/
inductive WindowMode where
  | Windowed
  | BorderlessFullscreen (sel : MonitorSelection)
  | Fullscreen (sel : MonitorSelection)
  | SizedFullscreen (sel : MonitorSelection)
deriving DecidableEq

/-- Log events emitted by the module (`warn!`, `error!`, `debug!` calls). -/
inductive LogEvent where
  | warnCannotSelectCurrentMonitor
  | errorUnableToGrab (desc : String) (err : ExternalError)
  | warnCursorHitTest (err : ExternalError)
  | debugDisplayInfo
deriving DecidableEq

/-- `abs_diff` helper inside `get_fitting_videomode`. -/
def abs_diff (a b : Nat) : Nat :=
  if a > b then a - b else b - a

/-- Comparator passed to `sort_by` in `get_fitting_videomode`: ascending in
the width distance, then the height distance, then descending in refresh
rate. -/
def fitting_cmp (width height : Nat) (a b : VideoModeHandle) : Ordering :=
  match compare (abs_diff a.size.width width) (abs_diff b.size.width width) with
  | .eq =>
    match compare (abs_diff a.size.height height) (abs_diff b.size.height height) with
    | .eq => compare b.refresh_rate_millihertz a.refresh_rate_millihertz
    | o => o
  | o => o

/-- `get_fitting_videomode(monitor, width, height)`: collect the monitor's
video modes, sort them by `fitting_cmp` (Rust `sort_by`, a stable merge sort),
take the first. `modes.first().unwrap()` panics on an empty list, modelled by
`Option.none`. -/
def get_fitting_videomode (monitor : MonitorHandle) (width height : Nat) :
    Option VideoModeHandle :=
  let modes := monitor.video_modes
  let modes := modes.mergeSort (fun a b =>
    (Ordering.isLE (fitting_cmp width height a b)))
  modes.head?

/-- Comparator of `get_best_videomode`: descending in width, then height,
then refresh rate (it compares `b` against `a`). -/
def best_cmp (a b : VideoModeHandle) : Ordering :=
  match compare b.size.width a.size.width with
  | .eq =>
    match compare b.size.height a.size.height with
    | .eq => compare b.refresh_rate_millihertz a.refresh_rate_millihertz
    | o => o
  | o => o

/-- `get_best_videomode(monitor)`: sort the monitor's video modes by
`best_cmp` and take the first; panics (`none`) on an empty mode list. -/
def get_best_videomode (monitor : MonitorHandle) : Option VideoModeHandle :=
  let modes := monitor.video_modes
  let modes := modes.mergeSort (fun a b => (Ordering.isLE (best_cmp a b)))
  modes.head?

/-- Modelled from the spec: `WinitMonitors` (defined in
`bevy_winit/src/winit_monitors.rs`, which is not part of the provided
sources) stores the known monitors together with the engine entity
representing each of them. Per the spec, `nth` resolves the n-th known
monitor and `find_entity` resolves the monitor associated with an entity. -/
structure WinitMonitors where
  monitors : List (MonitorHandle × Nat)
deriving DecidableEq

/-- Modelled from the spec: the n-th known monitor. -/
def WinitMonitors.nth (m : WinitMonitors) (n : Nat) : Option MonitorHandle :=
  (m.monitors.get? n).map Prod.fst

/-- Modelled from the spec: the monitor whose associated entity is `entity`. -/
def WinitMonitors.find_entity (m : WinitMonitors) (entity : Nat) :
    Option MonitorHandle :=
  (m.monitors.find? (fun p => p.2 == entity)).map Prod.fst

/-- `select_monitor(monitors, primary_monitor, current_monitor, monitor_selection)`.
The result is the selected monitor (if any) paired with the emitted log
events (the source logs a warning when `Current` is requested but no current
monitor is available). -/
def select_monitor (monitors : WinitMonitors)
    (primary_monitor current_monitor : Option MonitorHandle)
    (monitor_selection : MonitorSelection) :
    Option MonitorHandle × List LogEvent :=
  match monitor_selection with
  | .Current =>
    (current_monitor,
      if current_monitor.isNone then [.warnCannotSelectCurrentMonitor] else [])
  | .Primary => (primary_monitor, [])
  | .Index n => (monitors.nth n, [])
  | .Entity entity => (monitors.find_entity entity, [])

/-- The created winit window as seen by this module: its identifier plus the
behavior of the external calls made on it. The outcomes of
`set_cursor_grab` and `set_cursor_hittest` are decided by the OS windowing
library, so they are oracle functions. -/
structure WinitWindow where
  id : WindowId
  set_cursor_grab : WinitCursorGrabMode → Except ExternalError Unit
  set_cursor_hittest : Bool → Except ExternalError Unit

/-- Outcome of `attempt_grab`: the returned `Result`, the sequence of
`set_cursor_grab` requests issued to the winit window, and the log events. -/
structure GrabOutcome where
  result : Except ExternalError Unit
  requests : List WinitCursorGrabMode
  logs : List LogEvent

/-- `attempt_grab(winit_window, grab_mode)`. `None` issues a single ungrab
request; `Confined` requests `Confined` and falls back to `Locked` on error
(Rust `or_else`); `Locked` does the reverse. On a final error the function
logs it and returns it; otherwise it returns `Ok(())`. -/
def attempt_grab (winit_window : WinitWindow) (grab_mode : CursorGrabMode) :
    GrabOutcome :=
  let (grab_result, requests) :=
    match grab_mode with
    | .None => (winit_window.set_cursor_grab .None, [WinitCursorGrabMode.None])
    | .Confined =>
      match winit_window.set_cursor_grab .Confined with
      | .ok u => (Except.ok u, [WinitCursorGrabMode.Confined])
      | .error _e =>
        (winit_window.set_cursor_grab .Locked,
          [WinitCursorGrabMode.Confined, WinitCursorGrabMode.Locked])
    | .Locked =>
      match winit_window.set_cursor_grab .Locked with
      | .ok u => (Except.ok u, [WinitCursorGrabMode.Locked])
      | .error _e =>
        (winit_window.set_cursor_grab .Confined,
          [WinitCursorGrabMode.Locked, WinitCursorGrabMode.Confined])
  match grab_result with
  | .error err =>
    let err_desc :=
      match grab_mode with
      | .Confined | .Locked => "grab"
      | .None => "ungrab"
    ⟨Except.error err, requests, [.errorUnableToGrab err_desc err]⟩
  | .ok _ => ⟨Except.ok (), requests, []⟩

/-- `WindowWrapper<WinitWindow>`: the stored wrapper around the created winit
window, identified by the window's id. -/
structure WindowWrapper where
  id : WindowId
deriving DecidableEq

/-- Association-list lookup modelling `HashMap::get`. -/
def lookupA {β : Type} (k : Nat) : List (Nat × β) → Option β
  | [] => none
  | (k', v) :: l => if k = k' then some v else lookupA k l

/-- Association-list key removal modelling `HashMap::remove`. -/
def eraseKey {β : Type} (k : Nat) : List (Nat × β) → List (Nat × β)
  | [] => []
  | (k', v) :: l => if k' = k then eraseKey k l else (k', v) :: eraseKey k l

/-- Association-list insertion modelling `HashMap::insert` (overwrites any
existing entry for the key). -/
def insertKey {β : Type} (k : Nat) (v : β) (l : List (Nat × β)) :
    List (Nat × β) :=
  (k, v) :: eraseKey k l

/-- The `WinitWindows` resource: winit windows by window identifier, plus the
two directional entity/window-id maps. The `_not_send_sync` marker field has
no value-level content. -/
structure WinitWindows where
  windows : List (WindowId × WindowWrapper)
  entity_to_winit : List (Entity × WindowId)
  winit_to_entity : List (WindowId × Entity)
deriving DecidableEq

/-- `WinitWindows::default()`: all three maps empty. -/
def WinitWindows.default : WinitWindows := ⟨[], [], []⟩

/-- `get_window(entity)`: look up the winit id for the entity, then the
window stored under that id. -/
def WinitWindows.get_window (s : WinitWindows) (entity : Entity) :
    Option WindowWrapper :=
  (lookupA entity s.entity_to_winit).bind (fun winit_id => lookupA winit_id s.windows)

/-- `get_window_entity(winit_id)`: look up the entity for the winit id. -/
def WinitWindows.get_window_entity (s : WinitWindows) (winit_id : WindowId) :
    Option Entity :=
  lookupA winit_id s.winit_to_entity

/-- `remove_window(entity)`: remove the entity's entry from
`entity_to_winit` (early `None` return when absent via `?`), then remove the
corresponding entries from `winit_to_entity` and `windows`, returning the
removed window wrapper together with the updated state. -/
def WinitWindows.remove_window (s : WinitWindows) (entity : Entity) :
    Option WindowWrapper × WinitWindows :=
  match lookupA entity s.entity_to_winit with
  | none => (none, s)
  | some winit_id =>
    (lookupA winit_id s.windows,
      { windows := eraseKey winit_id s.windows
        entity_to_winit := eraseKey entity s.entity_to_winit
        winit_to_entity := eraseKey winit_id s.winit_to_entity })

/-- Reasons `create_window` can panic. -/
inductive Panicked where
  /-- `expect("Unable to get monitor.")` on a missing monitor for an
  exclusive fullscreen mode. -/
  | unableToGetMonitor
  /-- `modes.first().unwrap()` inside the videomode helpers on a monitor
  with no video modes. -/
  | emptyVideoModes
  /-- `event_loop.create_window(...).unwrap()` on a failed native window
  creation. -/
  | windowCreateFailed
deriving DecidableEq

/-- Behavior of the `ActiveEventLoop` external calls made by
`create_window`: the primary monitor and the outcome of native window
creation (`none` models a creation failure, which the source unwraps). -/
structure EventLoopOracle where
  primary_monitor : Option MonitorHandle
  create_window : Option WinitWindow

/-- Cursor options of the `Window` component used by `create_window`. -/
structure CursorOptions where
  grab_mode : CursorGrabMode
  visible : Bool
  hit_test : Bool

/-- The `bevy_window::Window` fields read by the modelled control flow of
`create_window`: the window mode, the requested size, and the cursor
options. (The remaining fields only feed the pure winit attribute
translation, which builds the attribute value handed to the external
library.) -/
structure Window where
  mode : WindowMode
  width : Nat
  height : Nat
  cursor_options : CursorOptions

/-- `create_window(event_loop, entity, window, ..., monitors, ...)`.

The model keeps the source's effectful skeleton in source order:
1. select the monitor for fullscreen modes (`select_monitor`);
2. build the fullscreen attribute, panicking via
   `expect("Unable to get monitor.")` when an exclusive fullscreen mode has
   no monitor, and inside `get_best_videomode` / `get_fitting_videomode`
   when the monitor has no video modes;
3. `event_loop.create_window(attributes).unwrap()` — panics on failure;
4. `attempt_grab` when the grab mode is not `None`, its result discarded
   (`let _ =`) but its log events emitted;
5. `set_cursor_hittest` when `hit_test` is false, a warning logged on error
   and execution continuing;
6. insert the paired entries into `entity_to_winit` and `winit_to_entity`
   and store the wrapper in `windows`, returning the stored wrapper.

Pure attribute construction (sizes, titles, levels, platform extensions) is
not modelled: it neither touches the maps nor fails. -/
def WinitWindows.create_window (s : WinitWindows) (event_loop : EventLoopOracle)
    (entity : Entity) (window : Window) (monitors : WinitMonitors) :
    Except Panicked (WinitWindows × WindowWrapper × List LogEvent) :=
  let (maybe_selected_monitor, monitor_logs) :=
    match window.mode with
    | .BorderlessFullscreen monitor_selection
    | .Fullscreen monitor_selection
    | .SizedFullscreen monitor_selection =>
      select_monitor monitors event_loop.primary_monitor none monitor_selection
    | .Windowed => (none, [])
  let fullscreen_status : Except Panicked Unit :=
    match window.mode with
    | .BorderlessFullscreen _ => Except.ok ()
    | .Fullscreen _ =>
      match maybe_selected_monitor with
      | none => Except.error .unableToGetMonitor
      | some m =>
        match get_best_videomode m with
        | none => Except.error .emptyVideoModes
        | some _ => Except.ok ()
    | .SizedFullscreen _ =>
      match maybe_selected_monitor with
      | none => Except.error .unableToGetMonitor
      | some m =>
        match get_fitting_videomode m window.width window.height with
        | none => Except.error .emptyVideoModes
        | some _ => Except.ok ()
    | .Windowed => Except.ok ()
  match fullscreen_status with
  | .error p => Except.error p
  | .ok _ =>
    match event_loop.create_window with
    | none => Except.error .windowCreateFailed
    | some winit_window =>
      let grab_logs :=
        if window.cursor_options.grab_mode ≠ CursorGrabMode.None then
          (attempt_grab winit_window window.cursor_options.grab_mode).logs
        else []
      let hittest_logs :=
        if !window.cursor_options.hit_test then
          match winit_window.set_cursor_hittest window.cursor_options.hit_test with
          | .error err => [LogEvent.warnCursorHitTest err]
          | .ok _ => []
        else []
      let wrapper : WindowWrapper := ⟨winit_window.id⟩
      Except.ok
        ({ entity_to_winit := insertKey entity winit_window.id s.entity_to_winit
           winit_to_entity := insertKey winit_window.id entity s.winit_to_entity
           windows := insertKey winit_window.id wrapper s.windows },
          wrapper,
          monitor_logs ++ [LogEvent.debugDisplayInfo] ++ grab_logs ++ hittest_logs)

/-- A call made on the `WinitWindows` resource, as driven by the host
engine's window lifecycle events: `create entity id` is a completed
`create_window` call in which winit created a native window with identifier
`id`; `remove entity` is a `remove_window` call. -/
inductive Op where
  | create (entity : Entity) (id : WindowId)
  | remove (entity : Entity)
deriving DecidableEq

/-- A winit window oracle on which every external call succeeds, used to
run `create_window` for lifecycle traces (a completed `create_window` call
is one in which native window creation succeeded). -/
def okWindow (id : WindowId) : WinitWindow :=
  ⟨id, fun _ => Except.ok (), fun _ => Except.ok ()⟩

/-- A plain windowed `Window` configuration. -/
def windowedWindow : Window :=
  ⟨WindowMode.Windowed, 1280, 720, ⟨CursorGrabMode.None, true, true⟩⟩

/-- Apply one lifecycle operation to the `WinitWindows` state, by running
the corresponding source operation. -/
def applyOp (s : WinitWindows) : Op → WinitWindows
  | .create entity id =>
    match s.create_window ⟨none, some (okWindow id)⟩ entity windowedWindow ⟨[]⟩ with
    | .ok (s', _, _) => s'
    | .error _ => s
  | .remove entity => (s.remove_window entity).2

/-- Run a sequence of lifecycle operations from a given state. -/
def runFrom (s : WinitWindows) (ops : List Op) : WinitWindows :=
  ops.foldl applyOp s

/-- Run a sequence of lifecycle operations from the default (empty) state. -/
def run (ops : List Op) : WinitWindows :=
  runFrom WinitWindows.default ops

/-- One lifecycle step is well-formed when a created entity is not already
mapped and the native window identifier is fresh: winit window identifiers
are unique among live windows. `remove_window` is total. -/
def validStep (s : WinitWindows) : Op → Bool
  | .create entity id =>
    (lookupA entity s.entity_to_winit).isNone &&
    (lookupA id s.winit_to_entity).isNone &&
    (lookupA id s.windows).isNone
  | .remove _ => true

/-- A well-formed lifecycle trace from a given state. -/
def valid (s : WinitWindows) : List Op → Bool
  | [] => true
  | op :: ops => validStep s op && valid (applyOp s op) ops

/-- The bijection property claimed for the two directional maps:
`entity_to_winit` maps `e` to `w` exactly when `winit_to_entity` maps `w`
to `e`. -/
def MutualInverse (s : WinitWindows) : Prop :=
  ∀ (e : Entity) (w : WindowId),
    lookupA e s.entity_to_winit = some w ↔ lookupA w s.winit_to_entity = some e

/-! ### Association-list map lemmas -/

theorem lookupA_eraseKey_self {β : Type} (k : Nat) (l : List (Nat × β)) :
    lookupA k (eraseKey k l) = none := by
  induction l with
  | nil => rfl
  | cons p t ih =>
    obtain ⟨k', v⟩ := p
    by_cases h : k' = k
    · simpa [eraseKey, h] using ih
    · simp [eraseKey, h, lookupA, Ne.symm h, ih]

theorem lookupA_eraseKey_ne {β : Type} (k k' : Nat) (h : k ≠ k')
    (l : List (Nat × β)) : lookupA k (eraseKey k' l) = lookupA k l := by
  induction l with
  | nil => rfl
  | cons p t ih =>
    obtain ⟨k'', v⟩ := p
    by_cases h2 : k'' = k'
    · subst h2
      simp [eraseKey, lookupA, h, ih]
    · by_cases h3 : k = k'' <;> simp [eraseKey, lookupA, h2, h3, ih]

theorem lookupA_insertKey_self {β : Type} (k : Nat) (v : β)
    (l : List (Nat × β)) : lookupA k (insertKey k v l) = some v := by
  simp [insertKey, lookupA]

theorem lookupA_insertKey_ne {β : Type} (k k' : Nat) (h : k ≠ k') (v : β)
    (l : List (Nat × β)) : lookupA k (insertKey k' v l) = lookupA k l := by
  simp [insertKey, lookupA, h, lookupA_eraseKey_ne k k' h l]

/-! ### The maintained invariant of the `WinitWindows` maps -/

/-- Invariant of the `WinitWindows` state: the two directional maps are
mutual inverses, `windows` has the same domain as `winit_to_entity`, and the
wrapper stored under a window identifier wraps exactly that window. -/
structure Inv (s : WinitWindows) : Prop where
  mutual_inverse : MutualInverse s
  windows_dom : ∀ w : WindowId,
    (lookupA w s.windows).isSome ↔ (lookupA w s.winit_to_entity).isSome
  windows_val : ∀ (w : WindowId) (wr : WindowWrapper),
    lookupA w s.windows = some wr → wr = ⟨w⟩

theorem Inv_default : Inv WinitWindows.default := by
  refine ⟨fun e w => ?_, fun w => ?_, fun w wr h => ?_⟩ <;>
    simp [WinitWindows.default, lookupA] at *

/-- Unfolding of `applyOp` for a create step: a completed `create_window`
call inserts the paired entries and stores the wrapper. -/
theorem applyOp_create (s : WinitWindows) (e : Entity) (w : WindowId) :
    applyOp s (.create e w) =
      { entity_to_winit := insertKey e w s.entity_to_winit
        winit_to_entity := insertKey w e s.winit_to_entity
        windows := insertKey w ⟨w⟩ s.windows } := rfl

/-- Unfolding of `applyOp` for a remove step. -/
theorem applyOp_remove (s : WinitWindows) (e : Entity) :
    applyOp s (.remove e) = (s.remove_window e).2 := rfl

theorem Inv.create {s : WinitWindows} (hInv : Inv s) {e : Entity} {w : WindowId}
    (he : lookupA e s.entity_to_winit = none)
    (hw : lookupA w s.winit_to_entity = none)
    (hww : lookupA w s.windows = none) :
    Inv (applyOp s (.create e w)) := by
  rw [applyOp_create]
  refine ⟨fun e' w' => ?_, fun w' => ?_, fun w' wr h => ?_⟩
  · by_cases he' : e' = e <;> by_cases hw' : w' = w
    · subst he'; subst hw'
      simp [lookupA_insertKey_self]
    · subst he'
      rw [lookupA_insertKey_self, lookupA_insertKey_ne w' w hw']
      constructor
      · intro h; cases h; exact absurd rfl hw'
      · intro h
        exact absurd ((hInv.mutual_inverse e' w').mpr h) (by simp [he])
    · subst hw'
      rw [lookupA_insertKey_ne e' e he', lookupA_insertKey_self]
      constructor
      · intro h
        exact absurd ((hInv.mutual_inverse e' w').mp h) (by simp [hw])
      · intro h; cases h; exact absurd rfl he'
    · rw [lookupA_insertKey_ne e' e he', lookupA_insertKey_ne w' w hw']
      exact hInv.mutual_inverse e' w'
  · by_cases hw' : w' = w
    · subst hw'
      simp [lookupA_insertKey_self]
    · rw [lookupA_insertKey_ne w' w hw', lookupA_insertKey_ne w' w hw']
      exact hInv.windows_dom w'
  · by_cases hw' : w' = w
    · subst hw'
      rw [lookupA_insertKey_self] at h
      cases h; rfl
    · rw [lookupA_insertKey_ne w' w hw'] at h
      exact hInv.windows_val w' wr h

theorem Inv.remove {s : WinitWindows} (hInv : Inv s) {e : Entity} :
    Inv (applyOp s (.remove e)) := by
  rw [applyOp_remove]
  unfold WinitWindows.remove_window
  cases hlook : lookupA e s.entity_to_winit with
  | none => simpa [hlook] using hInv
  | some w0 =>
    simp only [hlook]
    have hw0 : lookupA w0 s.winit_to_entity = some e :=
      (hInv.mutual_inverse e w0).mp hlook
    refine ⟨fun e' w' => ?_, fun w' => ?_, fun w' wr h => ?_⟩
    · by_cases he' : e' = e <;> by_cases hw' : w' = w0
      · subst he'; subst hw'
        simp [lookupA_eraseKey_self]
      · subst he'
        rw [lookupA_eraseKey_self, lookupA_eraseKey_ne w' w0 hw']
        constructor
        · intro h; cases h
        · intro h
          have := (hInv.mutual_inverse e' w').mpr h
          rw [hlook] at this
          cases this
          exact absurd rfl hw'
      · subst hw'
        rw [lookupA_eraseKey_ne e' e he', lookupA_eraseKey_self]
        constructor
        · intro h
          have := (hInv.mutual_inverse e' w').mp h
          rw [hw0] at this
          cases this
          exact absurd rfl he'
        · intro h; cases h
      · rw [lookupA_eraseKey_ne e' e he', lookupA_eraseKey_ne w' w0 hw']
        exact hInv.mutual_inverse e' w'
    · by_cases hw' : w' = w0
      · subst hw'
        simp [lookupA_eraseKey_self]
      · rw [lookupA_eraseKey_ne w' w0 hw', lookupA_eraseKey_ne w' w0 hw']
        exact hInv.windows_dom w'
    · by_cases hw' : w' = w0
      · subst hw'
        rw [lookupA_eraseKey_self] at h
        cases h
      · rw [lookupA_eraseKey_ne w' w0 hw'] at h
        exact hInv.windows_val w' wr h

theorem Inv_runFrom (s : WinitWindows) (ops : List Op) (hInv : Inv s)
    (hv : valid s ops = true) : Inv (runFrom s ops) := by
  induction ops generalizing s with
  | nil => exact hInv
  | cons op ops ih =>
    simp only [valid, Bool.and_eq_true] at hv
    have hstep : Inv (applyOp s op) := by
      cases op with
      | create e w =>
        have h1 := hv.1
        simp only [validStep, Bool.and_eq_true, Option.isNone_iff_eq_none] at h1
        exact hInv.create h1.1.1 h1.1.2 h1.2
      | remove e => exact hInv.remove
    exact ih (applyOp s op) hstep hv.2

/-! ### C1: the two directional maps form a bijection -/

/-- C1 (counterexample): the claim "after every sequence of `create_window`
and `remove_window` calls, `entity_to_winit` and `winit_to_entity` are mutual
inverses" fails as stated: calling `create_window` twice for the same entity
(the second native window getting a fresh identifier) leaves a stale reverse
entry. After `create_window(e=0) -> id 0` and `create_window(e=0) -> id 1`,
`winit_to_entity` still maps id `0` to entity `0` while `entity_to_winit`
maps entity `0` to id `1`. -/
theorem C1_counterexample :
    ¬ MutualInverse (run [Op.create 0 0, Op.create 0 1]) := by
  intro h
  have h0 : lookupA 0 (run [Op.create 0 0, Op.create 0 1]).winit_to_entity =
      some 0 := by decide
  have h1 := (h 0 0).mpr h0
  have h2 : lookupA 0 (run [Op.create 0 0, Op.create 0 1]).entity_to_winit =
      some 1 := by decide
  rw [h2] at h1
  cases h1

/-- C1 (amended): after every well-formed sequence of `create_window` and
`remove_window` calls — every create acting on an entity that is not
currently mapped, with winit assigning a native window identifier that is
fresh — `entity_to_winit` and `winit_to_entity` are mutual inverses:
`entity_to_winit` maps `e` to `w` exactly when `winit_to_entity` maps `w`
to `e`. The invariant is maintained by the paired inserts in
`create_window` and the paired removals in `remove_window`. -/
theorem C1_bijection (ops : List Op)
    (hv : valid WinitWindows.default ops = true) :
    MutualInverse (run ops) :=
  (Inv_runFrom WinitWindows.default ops Inv_default hv).mutual_inverse

theorem C1_bijection_witness :
    valid WinitWindows.default
        [Op.create 0 5, Op.create 1 7, Op.remove 0, Op.create 2 9] = true ∧
      MutualInverse
        (run [Op.create 0 5, Op.create 1 7, Op.remove 0, Op.create 2 9]) :=
  ⟨by decide,
    C1_bijection [Op.create 0 5, Op.create 1 7, Op.remove 0, Op.create 2 9]
      (by decide)⟩

/-! ### C4: the ID translation round-trips -/

theorem runFrom_append (s : WinitWindows) (l1 l2 : List Op) :
    runFrom s (l1 ++ l2) = runFrom (runFrom s l1) l2 := by
  unfold runFrom
  exact List.foldl_append ..

theorem valid_append (s : WinitWindows) (l1 l2 : List Op) :
    valid s (l1 ++ l2) = (valid s l1 && valid (runFrom s l1) l2) := by
  induction l1 generalizing s with
  | nil => simp [valid, runFrom]
  | cons op ops ih =>
    simp only [List.cons_append, valid, List.append_eq]
    rw [ih, ← Bool.and_assoc]
    rfl

/-- The state keeps entity `e` associated with window id `w` and stores the
wrapper created for it. -/
def Tracks (e : Entity) (w : WindowId) (s : WinitWindows) : Prop :=
  lookupA e s.entity_to_winit = some w ∧
  lookupA w s.winit_to_entity = some e ∧
  lookupA w s.windows = some ⟨w⟩

theorem Tracks_runFrom {e : Entity} {w : WindowId} (s : WinitWindows)
    (ops : List Op) (hInv : Inv s) (ht : Tracks e w s)
    (hv : valid s ops = true) (hnr : ∀ op ∈ ops, op ≠ Op.remove e) :
    Tracks e w (runFrom s ops) := by
  induction ops generalizing s with
  | nil => exact ht
  | cons op ops ih =>
    simp only [valid, Bool.and_eq_true] at hv
    have hnr' : ∀ op' ∈ ops, op' ≠ Op.remove e :=
      fun op' h => hnr op' (List.mem_cons_of_mem _ h)
    have hInv' : Inv (applyOp s op) := by
      cases op with
      | create e' w' =>
        have h1 := hv.1
        simp only [validStep, Bool.and_eq_true, Option.isNone_iff_eq_none] at h1
        exact hInv.create h1.1.1 h1.1.2 h1.2
      | remove e' => exact hInv.remove
    have ht' : Tracks e w (applyOp s op) := by
      cases op with
      | create e' w' =>
        have h1 := hv.1
        simp only [validStep, Bool.and_eq_true, Option.isNone_iff_eq_none] at h1
        have hee : e ≠ e' := by
          intro hEq
          rw [← hEq, ht.1] at h1
          cases h1.1.1
        have hww : w ≠ w' := by
          intro hEq
          rw [← hEq, ht.2.1] at h1
          cases h1.1.2
        rw [applyOp_create]
        exact ⟨by rw [lookupA_insertKey_ne e e' hee]; exact ht.1,
          by rw [lookupA_insertKey_ne w w' hww]; exact ht.2.1,
          by rw [lookupA_insertKey_ne w w' hww]; exact ht.2.2⟩
      | remove e' =>
        have hee : e ≠ e' := by
          intro hEq
          exact hnr (Op.remove e') (List.mem_cons_self _ _) (by rw [hEq])
        rw [applyOp_remove]
        unfold WinitWindows.remove_window
        cases hlook : lookupA e' s.entity_to_winit with
        | none => exact ht
        | some w0 =>
          have hww : w ≠ w0 := by
            intro hEq
            have h1 := (hInv.mutual_inverse e' w0).mp hlook
            rw [← hEq, ht.2.1] at h1
            cases h1
            exact hee rfl
          exact ⟨by rw [lookupA_eraseKey_ne e e' hee]; exact ht.1,
            by rw [lookupA_eraseKey_ne w w0 hww]; exact ht.2.1,
            by rw [lookupA_eraseKey_ne w w0 hww]; exact ht.2.2⟩
    exact ih (applyOp s op) hInv' ht' hv.2 hnr'

/-- C4: the ID translation round-trips. For every well-formed call sequence
in which `create_window` completed for entity `e` (winit assigning native
window identifier `w`) and `remove_window(e)` was never called afterwards,
`get_window_entity w` returns `Some e` and `get_window e` returns `Some` of
the window wrapper stored under `w`, which is the wrapper `create_window`
returned. -/
theorem C4_roundtrip (t1 t2 : List Op) (e : Entity) (w : WindowId)
    (hv : valid WinitWindows.default (t1 ++ Op.create e w :: t2) = true)
    (hnr : ∀ op ∈ t2, op ≠ Op.remove e) :
    (run (t1 ++ Op.create e w :: t2)).get_window_entity w = some e ∧
    (run (t1 ++ Op.create e w :: t2)).get_window e = some ⟨w⟩ := by
  rw [valid_append, Bool.and_eq_true] at hv
  obtain ⟨hv1, hv2⟩ := hv
  rw [show (Op.create e w :: t2) = [Op.create e w] ++ t2 by rfl,
    valid_append, Bool.and_eq_true] at hv2
  obtain ⟨hv2a, hv2b⟩ := hv2
  simp only [valid, Bool.and_eq_true, validStep, Option.isNone_iff_eq_none] at hv2a
  set s1 := runFrom WinitWindows.default t1 with hs1
  have hInv1 : Inv s1 := Inv_runFrom _ _ Inv_default hv1
  have hfresh := hv2a.1
  have hInv2 : Inv (applyOp s1 (Op.create e w)) :=
    hInv1.create hfresh.1.1 hfresh.1.2 hfresh.2
  have ht2 : Tracks e w (applyOp s1 (Op.create e w)) := by
    rw [applyOp_create]
    exact ⟨lookupA_insertKey_self .., lookupA_insertKey_self ..,
      lookupA_insertKey_self ..⟩
  have hrunsplit : run (t1 ++ Op.create e w :: t2) =
      runFrom (applyOp s1 (Op.create e w)) t2 := by
    rw [show (Op.create e w :: t2) = [Op.create e w] ++ t2 by rfl]
    unfold run
    rw [runFrom_append, runFrom_append]
    rfl
  have hvt2 : valid (applyOp s1 (Op.create e w)) t2 = true := by
    have : runFrom s1 [Op.create e w] = applyOp s1 (Op.create e w) := rfl
    rw [this] at hv2b
    exact hv2b
  have ht := Tracks_runFrom _ t2 hInv2 ht2 hvt2 hnr
  rw [hrunsplit]
  refine ⟨ht.2.1, ?_⟩
  unfold WinitWindows.get_window
  rw [ht.1]
  exact ht.2.2

theorem C4_roundtrip_witness :
    (valid WinitWindows.default
        ([Op.create 0 5] ++ Op.create 1 7 :: [Op.remove 0, Op.create 2 9]) =
        true ∧
      ∀ op ∈ [Op.remove 0, Op.create 2 9], op ≠ Op.remove 1) ∧
    (run ([Op.create 0 5] ++ Op.create 1 7 :: [Op.remove 0, Op.create 2 9])).get_window_entity
        7 = some 1 ∧
    (run ([Op.create 0 5] ++ Op.create 1 7 :: [Op.remove 0, Op.create 2 9])).get_window
        1 = some ⟨7⟩ :=
  ⟨⟨by decide, by decide⟩,
    C4_roundtrip [Op.create 0 5] [Op.remove 0, Op.create 2 9] 1 7 (by decide)
      (by decide)⟩

/-! ### C5: `remove_window` -/

/-- C5: on any state reached by a well-formed call sequence,
`remove_window(entity)` returns `Some` of the window wrapper associated
with that entity and deletes the entity's entries from `entity_to_winit`,
`winit_to_entity` and `windows`, leaving every other entity's and window
id's mapping unchanged; when the entity has no association it returns
`None` and leaves the state completely unchanged. -/
theorem C5_remove_window (ops : List Op) (entity : Entity)
    (hv : valid WinitWindows.default ops = true) :
    (∀ w, lookupA entity (run ops).entity_to_winit = some w →
      ((run ops).remove_window entity).1 = some ⟨w⟩ ∧
      lookupA entity ((run ops).remove_window entity).2.entity_to_winit = none ∧
      lookupA w ((run ops).remove_window entity).2.winit_to_entity = none ∧
      lookupA w ((run ops).remove_window entity).2.windows = none ∧
      (∀ e', e' ≠ entity →
        lookupA e' ((run ops).remove_window entity).2.entity_to_winit =
          lookupA e' (run ops).entity_to_winit) ∧
      (∀ w', w' ≠ w →
        lookupA w' ((run ops).remove_window entity).2.winit_to_entity =
          lookupA w' (run ops).winit_to_entity ∧
        lookupA w' ((run ops).remove_window entity).2.windows =
          lookupA w' (run ops).windows)) ∧
    (lookupA entity (run ops).entity_to_winit = none →
      (run ops).remove_window entity = (none, run ops)) := by
  have hInv : Inv (run ops) := Inv_runFrom _ _ Inv_default hv
  constructor
  · intro w hl
    have hw2e : lookupA w (run ops).winit_to_entity = some entity :=
      (hInv.mutual_inverse entity w).mp hl
    have hwin : lookupA w (run ops).windows = some ⟨w⟩ := by
      have hsome : (lookupA w (run ops).windows).isSome := by
        rw [(hInv.windows_dom w)]
        simp [hw2e]
      obtain ⟨wr, hwr⟩ := Option.isSome_iff_exists.mp hsome
      rw [hwr, hInv.windows_val w wr hwr]
    unfold WinitWindows.remove_window
    rw [hl]
    refine ⟨hwin, lookupA_eraseKey_self .., lookupA_eraseKey_self ..,
      lookupA_eraseKey_self .., fun e' he' => ?_, fun w' hw' => ?_⟩
    · exact lookupA_eraseKey_ne e' entity he' _
    · exact ⟨lookupA_eraseKey_ne w' w hw' _, lookupA_eraseKey_ne w' w hw' _⟩
  · intro hl
    unfold WinitWindows.remove_window
    rw [hl]

theorem C5_remove_window_witness :
    (valid WinitWindows.default [Op.create 3 9, Op.create 4 11] = true ∧
      lookupA 3 (run [Op.create 3 9, Op.create 4 11]).entity_to_winit =
        some 9) ∧
    ((run [Op.create 3 9, Op.create 4 11]).remove_window 3).1 = some ⟨9⟩ ∧
    lookupA 3
      ((run [Op.create 3 9, Op.create 4 11]).remove_window 3).2.entity_to_winit =
      none ∧
    lookupA 11
      ((run [Op.create 3 9, Op.create 4 11]).remove_window 3).2.windows =
      lookupA 11 (run [Op.create 3 9, Op.create 4 11]).windows := by
  have h := C5_remove_window [Op.create 3 9, Op.create 4 11] 3 (by decide)
  have h9 := h.1 9 (by decide)
  exact ⟨⟨by decide, by decide⟩, h9.1, h9.2.1,
    (h9.2.2.2.2.2 11 (by decide)).2⟩

/-! ### C2 and C9: video-mode selection -/

/-- Three-component comparison chain, the shape shared by `best_cmp` and
`fitting_cmp`. -/
def cmp3 (x y u v s t : Nat) : Ordering :=
  match compare x y with
  | .eq =>
    match compare u v with
    | .eq => compare s t
    | o => o
  | o => o

/-- Lexicographic order on three `Nat` components, as a proposition:
`(x, u, s)` is at most `(y, v, t)`. -/
def lex3 (x y u v s t : Nat) : Prop :=
  x < y ∨ (x = y ∧ (u < v ∨ (u = v ∧ s ≤ t)))

theorem best_cmp_eq_cmp3 (a b : VideoModeHandle) :
    best_cmp a b =
      cmp3 b.size.width a.size.width b.size.height a.size.height
        b.refresh_rate_millihertz a.refresh_rate_millihertz := rfl

theorem fitting_cmp_eq_cmp3 (width height : Nat) (a b : VideoModeHandle) :
    fitting_cmp width height a b =
      cmp3 (abs_diff a.size.width width) (abs_diff b.size.width width)
        (abs_diff a.size.height height) (abs_diff b.size.height height)
        b.refresh_rate_millihertz a.refresh_rate_millihertz := rfl

theorem cmp3_isLE (x y u v s t : Nat) :
    Ordering.isLE (cmp3 x y u v s t) = true ↔ lex3 x y u v s t := by
  unfold cmp3 lex3
  simp only [Nat.compare_def_lt]
  split_ifs <;> simp [Ordering.isLE] <;> omega

theorem lex3_trans {x y z u v w s t r : Nat} (h1 : lex3 x y u v s t)
    (h2 : lex3 y z v w t r) : lex3 x z u w s r := by
  unfold lex3 at *
  omega

theorem lex3_trans_rev {x y z u v w s t q : Nat} (h1 : lex3 x y u v s t)
    (h2 : lex3 y z v w q s) : lex3 x z u w q t := by
  unfold lex3 at *
  omega

theorem lex3_total (x y u v s t : Nat) :
    lex3 x y u v s t ∨ lex3 y x v u t s := by
  unfold lex3
  omega

theorem mergeSort_ne_nil {α : Type} (le : α → α → Bool) (l : List α)
    (h : l ≠ []) : l.mergeSort le ≠ [] := by
  intro hc
  have hlen : (l.mergeSort le).length = l.length := List.length_mergeSort l
  rw [hc] at hlen
  exact h (List.length_eq_zero.mp hlen.symm)

/-- The head of a `mergeSort`ed list (Rust `sort_by` followed by `first()`)
belongs to the original list and is a least element for the comparator. -/
theorem mergeSort_head_min {α : Type} (le : α → α → Bool)
    (htrans : ∀ a b c, le a b = true → le b c = true → le a c = true)
    (htotal : ∀ a b, (le a b || le b a) = true)
    (l : List α) (m : α) (hm : (l.mergeSort le).head? = some m) :
    m ∈ l ∧ ∀ x ∈ l, le m x = true := by
  have hperm := List.mergeSort_perm l le
  have hsorted := List.sorted_mergeSort htrans htotal l
  cases hsort : l.mergeSort le with
  | nil => rw [hsort] at hm; cases hm
  | cons a rest =>
    rw [hsort] at hm hperm hsorted
    cases hm
    have hmem : m ∈ l := hperm.mem_iff.mp (List.mem_cons_self m rest)
    refine ⟨hmem, fun x hx => ?_⟩
    have hx' : x ∈ m :: rest := hperm.mem_iff.mpr hx
    rcases List.mem_cons.mp hx' with rfl | hx''
    · have := htotal x x
      simpa using this
    · exact (List.pairwise_cons.mp hsorted).1 x hx''

/-- C2: video-mode selection is a sort-and-pick heuristic. For every monitor
with a non-empty mode list, `get_best_videomode` returns a mode of the
monitor that is maximal in the lexicographic order on
(width, height, refresh rate in millihertz), and
`get_fitting_videomode(monitor, width, height)` returns a mode of the
monitor minimizing the width distance to `width`, breaking ties by the
height distance to `height`, breaking remaining ties by maximal refresh
rate. -/
theorem C2_videomode_selection (monitor : MonitorHandle) (width height : Nat)
    (hne : monitor.video_modes ≠ []) :
    (∃ best, get_best_videomode monitor = some best ∧
      best ∈ monitor.video_modes ∧
      ∀ m ∈ monitor.video_modes,
        lex3 m.size.width best.size.width m.size.height best.size.height
          m.refresh_rate_millihertz best.refresh_rate_millihertz) ∧
    (∃ fit, get_fitting_videomode monitor width height = some fit ∧
      fit ∈ monitor.video_modes ∧
      ∀ m ∈ monitor.video_modes,
        lex3 (abs_diff fit.size.width width) (abs_diff m.size.width width)
          (abs_diff fit.size.height height) (abs_diff m.size.height height)
          m.refresh_rate_millihertz fit.refresh_rate_millihertz) := by
  constructor
  · have hne' := mergeSort_ne_nil
      (fun a b => Ordering.isLE (best_cmp a b)) monitor.video_modes hne
    cases hm : (monitor.video_modes.mergeSort
        (fun a b => Ordering.isLE (best_cmp a b))).head? with
    | none => exact absurd (List.head?_eq_none_iff.mp hm) hne'
    | some best =>
      have hmin := mergeSort_head_min (fun a b => Ordering.isLE (best_cmp a b))
        (fun a b c h1 h2 => by
          dsimp only at h1 h2 ⊢
          rw [best_cmp_eq_cmp3, cmp3_isLE] at h1 h2 ⊢
          exact lex3_trans h2 h1)
        (fun a b => by
          dsimp only
          rw [Bool.or_eq_true, best_cmp_eq_cmp3, best_cmp_eq_cmp3, cmp3_isLE,
            cmp3_isLE]
          exact lex3_total ..)
        monitor.video_modes best hm
      refine ⟨best, hm, hmin.1, fun m hmem => ?_⟩
      have := hmin.2 m hmem
      dsimp only at this
      rwa [best_cmp_eq_cmp3, cmp3_isLE] at this
  · have hne' := mergeSort_ne_nil
      (fun a b => Ordering.isLE (fitting_cmp width height a b))
      monitor.video_modes hne
    cases hm : (monitor.video_modes.mergeSort
        (fun a b => Ordering.isLE (fitting_cmp width height a b))).head? with
    | none => exact absurd (List.head?_eq_none_iff.mp hm) hne'
    | some fit =>
      have hmin := mergeSort_head_min
        (fun a b => Ordering.isLE (fitting_cmp width height a b))
        (fun a b c h1 h2 => by
          dsimp only at h1 h2 ⊢
          rw [fitting_cmp_eq_cmp3, cmp3_isLE] at h1 h2 ⊢
          exact lex3_trans_rev h1 h2)
        (fun a b => by
          dsimp only
          rw [Bool.or_eq_true, fitting_cmp_eq_cmp3, fitting_cmp_eq_cmp3,
            cmp3_isLE, cmp3_isLE]
          exact lex3_total ..)
        monitor.video_modes fit hm
      refine ⟨fit, hm, hmin.1, fun m hmem => ?_⟩
      have := hmin.2 m hmem
      dsimp only at this
      rwa [fitting_cmp_eq_cmp3, cmp3_isLE] at this

theorem C2_videomode_selection_witness :
    (MonitorHandle.mk 0
        [⟨⟨800, 600⟩, 60000⟩, ⟨⟨1024, 768⟩, 59000⟩,
          ⟨⟨1024, 768⟩, 75000⟩]).video_modes ≠ [] ∧
    (∃ best,
      get_best_videomode
        (MonitorHandle.mk 0
          [⟨⟨800, 600⟩, 60000⟩, ⟨⟨1024, 768⟩, 59000⟩,
            ⟨⟨1024, 768⟩, 75000⟩]) = some best ∧
      best ∈ (MonitorHandle.mk 0
        [⟨⟨800, 600⟩, 60000⟩, ⟨⟨1024, 768⟩, 59000⟩,
          ⟨⟨1024, 768⟩, 75000⟩]).video_modes ∧
      ∀ m ∈ (MonitorHandle.mk 0
        [⟨⟨800, 600⟩, 60000⟩, ⟨⟨1024, 768⟩, 59000⟩,
          ⟨⟨1024, 768⟩, 75000⟩]).video_modes,
        lex3 m.size.width best.size.width m.size.height best.size.height
          m.refresh_rate_millihertz best.refresh_rate_millihertz) :=
  ⟨by decide,
    (C2_videomode_selection
      (MonitorHandle.mk 0
        [⟨⟨800, 600⟩, 60000⟩, ⟨⟨1024, 768⟩, 59000⟩, ⟨⟨1024, 768⟩, 75000⟩])
      1000 700 (by decide)).1⟩

/-- C9: on a monitor whose video-mode list is empty, both
`get_best_videomode` and `get_fitting_videomode` panic (they unwrap the
first element of the sorted, empty, list), modelled by `none`; on a monitor
with at least one video mode both are total (return `some`). -/
theorem C9_empty_videomodes (monitor : MonitorHandle) (width height : Nat) :
    (monitor.video_modes = [] →
      get_best_videomode monitor = none ∧
      get_fitting_videomode monitor width height = none) ∧
    (monitor.video_modes ≠ [] →
      (get_best_videomode monitor).isSome = true ∧
      (get_fitting_videomode monitor width height).isSome = true) := by
  constructor
  · intro h
    unfold get_best_videomode get_fitting_videomode
    rw [h]
    simp
  · intro h
    constructor
    · unfold get_best_videomode
      rw [Option.isSome_iff_ne_none]
      intro hc
      exact mergeSort_ne_nil _ _ h (List.head?_eq_none_iff.mp hc)
    · unfold get_fitting_videomode
      rw [Option.isSome_iff_ne_none]
      intro hc
      exact mergeSort_ne_nil _ _ h (List.head?_eq_none_iff.mp hc)

theorem C9_empty_videomodes_witness :
    ((MonitorHandle.mk 0 []).video_modes = [] ∧
      get_best_videomode (MonitorHandle.mk 0 []) = none ∧
      get_fitting_videomode (MonitorHandle.mk 0 []) 640 480 = none) ∧
    ((MonitorHandle.mk 1 [⟨⟨640, 480⟩, 60000⟩]).video_modes ≠ [] ∧
      (get_best_videomode (MonitorHandle.mk 1 [⟨⟨640, 480⟩, 60000⟩])).isSome =
        true) :=
  ⟨⟨rfl, (C9_empty_videomodes (MonitorHandle.mk 0 []) 640 480).1 rfl⟩,
    ⟨by decide,
      ((C9_empty_videomodes (MonitorHandle.mk 1 [⟨⟨640, 480⟩, 60000⟩]) 640 480).2
        (by decide)).1⟩⟩

/-! ### C3: `attempt_grab` fallback between the two grab strategies -/

/-- C3: `attempt_grab` implements a fallback between the two grab
strategies. `Confined` first requests `Confined` and, only on failure,
requests `Locked`; `Locked` does the reverse; the result is `Ok` exactly
when one of the attempts succeeds, and when both fail the (second) error is
logged and returned; `None` issues exactly one ungrab request with no
fallback. -/
theorem C3_attempt_grab (winit_window : WinitWindow) :
    ((attempt_grab winit_window CursorGrabMode.Confined).requests =
      match winit_window.set_cursor_grab WinitCursorGrabMode.Confined with
      | .ok _ => [WinitCursorGrabMode.Confined]
      | .error _ => [WinitCursorGrabMode.Confined, WinitCursorGrabMode.Locked]) ∧
    ((attempt_grab winit_window CursorGrabMode.Locked).requests =
      match winit_window.set_cursor_grab WinitCursorGrabMode.Locked with
      | .ok _ => [WinitCursorGrabMode.Locked]
      | .error _ => [WinitCursorGrabMode.Locked, WinitCursorGrabMode.Confined]) ∧
    ((attempt_grab winit_window CursorGrabMode.Confined).result.isOk =
      ((winit_window.set_cursor_grab WinitCursorGrabMode.Confined).isOk ||
        (winit_window.set_cursor_grab WinitCursorGrabMode.Locked).isOk)) ∧
    ((attempt_grab winit_window CursorGrabMode.Locked).result.isOk =
      ((winit_window.set_cursor_grab WinitCursorGrabMode.Locked).isOk ||
        (winit_window.set_cursor_grab WinitCursorGrabMode.Confined).isOk)) ∧
    (∀ e1 e2,
      winit_window.set_cursor_grab WinitCursorGrabMode.Confined =
        Except.error e1 →
      winit_window.set_cursor_grab WinitCursorGrabMode.Locked =
        Except.error e2 →
      (attempt_grab winit_window CursorGrabMode.Confined).result =
          Except.error e2 ∧
        (attempt_grab winit_window CursorGrabMode.Confined).logs =
          [LogEvent.errorUnableToGrab "grab" e2] ∧
        (attempt_grab winit_window CursorGrabMode.Locked).result =
          Except.error e1 ∧
        (attempt_grab winit_window CursorGrabMode.Locked).logs =
          [LogEvent.errorUnableToGrab "grab" e1]) ∧
    ((attempt_grab winit_window CursorGrabMode.None).requests =
      [WinitCursorGrabMode.None]) ∧
    ((attempt_grab winit_window CursorGrabMode.None).result =
      winit_window.set_cursor_grab WinitCursorGrabMode.None) ∧
    (∀ e,
      winit_window.set_cursor_grab WinitCursorGrabMode.None =
        Except.error e →
      (attempt_grab winit_window CursorGrabMode.None).logs =
        [LogEvent.errorUnableToGrab "ungrab" e]) := by
  cases hc : winit_window.set_cursor_grab WinitCursorGrabMode.Confined <;>
    cases hl : winit_window.set_cursor_grab WinitCursorGrabMode.Locked <;>
    cases hn : winit_window.set_cursor_grab WinitCursorGrabMode.None <;>
    simp [attempt_grab, hc, hl, hn, Except.isOk, Except.toBool]

/-- A winit window on which every grab attempt fails. -/
def grabFailWindow : WinitWindow :=
  ⟨0,
    fun m =>
      match m with
      | .None => Except.ok ()
      | .Confined => Except.error ⟨1⟩
      | .Locked => Except.error ⟨2⟩,
    fun _ => Except.ok ()⟩

theorem C3_attempt_grab_witness :
    (grabFailWindow.set_cursor_grab WinitCursorGrabMode.Confined =
        Except.error ⟨1⟩ ∧
      grabFailWindow.set_cursor_grab WinitCursorGrabMode.Locked =
        Except.error ⟨2⟩) ∧
    (attempt_grab grabFailWindow CursorGrabMode.Confined).result =
      Except.error ⟨2⟩ ∧
    (attempt_grab grabFailWindow CursorGrabMode.Confined).logs =
      [LogEvent.errorUnableToGrab "grab" ⟨2⟩] :=
  ⟨⟨rfl, rfl⟩,
    ((C3_attempt_grab grabFailWindow).2.2.2.2.1 ⟨1⟩ ⟨2⟩ rfl rfl).1,
    ((C3_attempt_grab grabFailWindow).2.2.2.2.1 ⟨1⟩ ⟨2⟩ rfl rfl).2.1⟩

/-! ### C6: the helper functions are stateless -/

/-- A `get_best_videomode` call made while the `WinitWindows` resource is
live: the source function takes no reference to the resource (or any other
persistent state), so the call returns its result and hands the resource
back untouched. -/
def get_best_videomode_call (s : WinitWindows) (monitor : MonitorHandle) :
    Option VideoModeHandle × WinitWindows :=
  (get_best_videomode monitor, s)

/-- A `get_fitting_videomode` call made while the `WinitWindows` resource is
live. -/
def get_fitting_videomode_call (s : WinitWindows) (monitor : MonitorHandle)
    (width height : Nat) : Option VideoModeHandle × WinitWindows :=
  (get_fitting_videomode monitor width height, s)

/-- A `select_monitor` call made while the `WinitWindows` resource is
live. -/
def select_monitor_call (s : WinitWindows) (monitors : WinitMonitors)
    (primary_monitor current_monitor : Option MonitorHandle)
    (monitor_selection : MonitorSelection) :
    (Option MonitorHandle × List LogEvent) × WinitWindows :=
  (select_monitor monitors primary_monitor current_monitor monitor_selection, s)

/-- C6: the three helper functions are stateless. A call's result is
determined solely by its arguments — two calls with equal arguments return
equal results even from different `WinitWindows` states — and every call
leaves the `WinitWindows` state exactly as it was. -/
theorem C6_stateless (s1 s2 : WinitWindows) (monitor : MonitorHandle)
    (width height : Nat) (monitors : WinitMonitors)
    (primary_monitor current_monitor : Option MonitorHandle)
    (monitor_selection : MonitorSelection) :
    ((get_best_videomode_call s1 monitor).1 =
        (get_best_videomode_call s2 monitor).1 ∧
      (get_best_videomode_call s1 monitor).2 = s1) ∧
    ((get_fitting_videomode_call s1 monitor width height).1 =
        (get_fitting_videomode_call s2 monitor width height).1 ∧
      (get_fitting_videomode_call s1 monitor width height).2 = s1) ∧
    ((select_monitor_call s1 monitors primary_monitor current_monitor
          monitor_selection).1 =
        (select_monitor_call s2 monitors primary_monitor current_monitor
          monitor_selection).1 ∧
      (select_monitor_call s1 monitors primary_monitor current_monitor
          monitor_selection).2 = s1) :=
  ⟨⟨rfl, rfl⟩, ⟨rfl, rfl⟩, ⟨rfl, rfl⟩⟩

/-! ### C10: `select_monitor` is a direct lookup -/

/-- C10: `select_monitor` resolves each `MonitorSelection` variant as a
direct lookup: `Current` returns the `current_monitor` argument unchanged
(`None` included, with only a warning logged), `Primary` returns the
`primary_monitor` argument unchanged, `Index n` returns the n-th known
monitor, and `Entity e` returns the monitor associated with entity `e`; it
returns `None` exactly when the requested lookup yields nothing and never
substitutes a different monitor. -/
theorem C10_select_monitor (monitors : WinitMonitors)
    (primary_monitor current_monitor : Option MonitorHandle) (n : Nat)
    (entity : Nat) :
    select_monitor monitors primary_monitor current_monitor
        MonitorSelection.Current =
      (current_monitor,
        if current_monitor.isNone then [LogEvent.warnCannotSelectCurrentMonitor]
        else []) ∧
    select_monitor monitors primary_monitor current_monitor
        MonitorSelection.Primary = (primary_monitor, []) ∧
    select_monitor monitors primary_monitor current_monitor
        (MonitorSelection.Index n) = (monitors.nth n, []) ∧
    select_monitor monitors primary_monitor current_monitor
        (MonitorSelection.Entity entity) = (monitors.find_entity entity, []) :=
  ⟨rfl, rfl, rfl, rfl⟩

/-! ### C7: failures are logged-and-ignored or propagated as panics -/

/-- C7: failures are forwarded library errors that are either logged and
ignored or propagated as panics. `create_window` panics when no monitor can
be resolved for an exclusive-fullscreen mode and when native window
creation fails; a failed cursor-hittest call is logged as a warning and
execution continues to completion; `attempt_grab` logs the library error
exactly when it returns one. -/
theorem C7_error_handling :
    (∀ (s : WinitWindows) (event_loop : EventLoopOracle) (entity : Entity)
        (w h : Nat) (co : CursorOptions) (monitors : WinitMonitors)
        (sel : MonitorSelection),
      (select_monitor monitors event_loop.primary_monitor none sel).1 = none →
      s.create_window event_loop entity ⟨WindowMode.Fullscreen sel, w, h, co⟩
          monitors =
        Except.error Panicked.unableToGetMonitor) ∧
    (∀ (s : WinitWindows) (event_loop : EventLoopOracle) (entity : Entity)
        (w h : Nat) (co : CursorOptions) (monitors : WinitMonitors)
        (sel : MonitorSelection),
      (select_monitor monitors event_loop.primary_monitor none sel).1 = none →
      s.create_window event_loop entity
          ⟨WindowMode.SizedFullscreen sel, w, h, co⟩ monitors =
        Except.error Panicked.unableToGetMonitor) ∧
    (∀ (s : WinitWindows) (entity : Entity) (w h : Nat) (co : CursorOptions)
        (monitors : WinitMonitors) (pm : Option MonitorHandle),
      s.create_window ⟨pm, none⟩ entity ⟨WindowMode.Windowed, w, h, co⟩
          monitors =
        Except.error Panicked.windowCreateFailed) ∧
    (∀ (s : WinitWindows) (entity : Entity) (w h : Nat)
        (monitors : WinitMonitors) (pm : Option MonitorHandle)
        (ww : WinitWindow) (err : ExternalError),
      ww.set_cursor_hittest false = Except.error err →
      s.create_window ⟨pm, some ww⟩ entity
          ⟨WindowMode.Windowed, w, h, ⟨CursorGrabMode.None, true, false⟩⟩
          monitors =
        Except.ok
          ({ windows := insertKey ww.id ⟨ww.id⟩ s.windows
             entity_to_winit := insertKey entity ww.id s.entity_to_winit
             winit_to_entity := insertKey ww.id entity s.winit_to_entity },
            ⟨ww.id⟩,
            [LogEvent.debugDisplayInfo, LogEvent.warnCursorHitTest err])) ∧
    (∀ (ww : WinitWindow) (mode : CursorGrabMode) (err : ExternalError),
      (attempt_grab ww mode).result = Except.error err →
      (attempt_grab ww mode).logs =
        [LogEvent.errorUnableToGrab
          (match mode with
          | CursorGrabMode.None => "ungrab"
          | _ => "grab") err]) ∧
    (∀ (ww : WinitWindow) (mode : CursorGrabMode),
      (attempt_grab ww mode).result = Except.ok () →
      (attempt_grab ww mode).logs = []) := by
  refine ⟨?_, ?_, ?_, ?_, ?_, ?_⟩
  · intro s event_loop entity w h co monitors sel hnone
    rcases hsel : select_monitor monitors event_loop.primary_monitor none sel
      with ⟨msel, mlogs⟩
    rw [hsel] at hnone
    cases hnone
    simp [WinitWindows.create_window, hsel]
  · intro s event_loop entity w h co monitors sel hnone
    rcases hsel : select_monitor monitors event_loop.primary_monitor none sel
      with ⟨msel, mlogs⟩
    rw [hsel] at hnone
    cases hnone
    simp [WinitWindows.create_window, hsel]
  · intro s entity w h co monitors pm
    simp [WinitWindows.create_window]
  · intro s entity w h monitors pm ww err hhit
    simp [WinitWindows.create_window, hhit]
  · intro ww mode err herr
    cases mode <;>
      cases hc : ww.set_cursor_grab WinitCursorGrabMode.Confined <;>
      cases hl : ww.set_cursor_grab WinitCursorGrabMode.Locked <;>
      cases hn : ww.set_cursor_grab WinitCursorGrabMode.None <;>
      simp_all [attempt_grab]
  · intro ww mode hok
    cases mode <;>
      cases hc : ww.set_cursor_grab WinitCursorGrabMode.Confined <;>
      cases hl : ww.set_cursor_grab WinitCursorGrabMode.Locked <;>
      cases hn : ww.set_cursor_grab WinitCursorGrabMode.None <;>
      simp_all [attempt_grab]

/-- A winit window on which the cursor-hittest call fails. -/
def hitTestFailWindow : WinitWindow :=
  ⟨4, fun _ => Except.ok (), fun _ => Except.error ⟨7⟩⟩

theorem C7_error_handling_witness :
    ((select_monitor ⟨[]⟩ none none MonitorSelection.Primary).1 = none ∧
      WinitWindows.default.create_window ⟨none, some hitTestFailWindow⟩ 0
          ⟨WindowMode.Fullscreen MonitorSelection.Primary, 640, 480,
            ⟨CursorGrabMode.None, true, true⟩⟩ ⟨[]⟩ =
        Except.error Panicked.unableToGetMonitor) ∧
    (WinitWindows.default.create_window ⟨none, none⟩ 0
        ⟨WindowMode.Windowed, 640, 480, ⟨CursorGrabMode.None, true, true⟩⟩
        ⟨[]⟩ =
      Except.error Panicked.windowCreateFailed) ∧
    (hitTestFailWindow.set_cursor_hittest false = Except.error ⟨7⟩ ∧
      WinitWindows.default.create_window ⟨none, some hitTestFailWindow⟩ 0
          ⟨WindowMode.Windowed, 640, 480,
            ⟨CursorGrabMode.None, true, false⟩⟩ ⟨[]⟩ =
        Except.ok
          ({ windows := insertKey 4 ⟨4⟩ WinitWindows.default.windows
             entity_to_winit :=
               insertKey 0 4 WinitWindows.default.entity_to_winit
             winit_to_entity :=
               insertKey 4 0 WinitWindows.default.winit_to_entity },
            ⟨4⟩,
            [LogEvent.debugDisplayInfo, LogEvent.warnCursorHitTest ⟨7⟩])) :=
  ⟨⟨rfl,
      C7_error_handling.1 WinitWindows.default ⟨none, some hitTestFailWindow⟩
        0 640 480 ⟨CursorGrabMode.None, true, true⟩ ⟨[]⟩
        MonitorSelection.Primary rfl⟩,
    C7_error_handling.2.2.1 WinitWindows.default 0 640 480
      ⟨CursorGrabMode.None, true, true⟩ ⟨[]⟩ none,
    rfl,
    C7_error_handling.2.2.2.1 WinitWindows.default 0 640 480 ⟨[]⟩ none
      hitTestFailWindow ⟨7⟩ rfl⟩

end BevyWinit
